import Mathlib

/-!
Shallow embedding of the image generate/combine front end (`src/index.tsx`).

The TypeScript file is UI glue around two remote calls.  We model the
DOM-visible state (active tab, prompts, upload slots, output image and
download-button visibility, status line, disabled controls) as a structure
`St`, and the orchestration function `performGeneration` as a pure function
from that state plus the environment (credential, dialog availability, and
the outcome the remote service would deliver for each endpoint) to the new
state together with a flag recording whether a network call was issued.

String operations (`trim`, `toLower`, substring `includes`) are re-implemented
over `List Char` so that everything is executable by `decide`; they agree with
the JavaScript operations on the ASCII phrases the code matches against.
-/

namespace ImageApp

/-- Embedding of JavaScript `String.prototype.trim`: drop whitespace from both
ends (whitespace here is the ASCII whitespace used by the prompts). -/
def trim (s : String) : String :=
  ⟨((s.data.dropWhile Char.isWhitespace).reverse.dropWhile Char.isWhitespace).reverse⟩

/-- Embedding of JavaScript `String.prototype.toLowerCase` (ASCII letters). -/
def toLower (s : String) : String :=
  ⟨s.data.map Char.toLower⟩

/-- Helper for `includes`: does `needle` occur as a contiguous sublist? -/
def listContains (needle : List Char) : List Char → Bool
  | [] => needle.isEmpty
  | c :: cs => List.isPrefixOf needle (c :: cs) || listContains needle cs

/-- Embedding of JavaScript `String.prototype.includes` (substring test). -/
def includes (haystack needle : String) : Bool :=
  listContains needle.data haystack.data

/-- Image slot payload, `interface ImageData` in the source. -/
structure ImageData where
  base64 : String
  mimeType : String
  deriving DecidableEq, Repr

/-- The two tabs, the type of the `activeTab` variable. -/
inductive Tab
  | generate
  | combine
  deriving DecidableEq, Repr

/-- Payload of one generated image in the text-to-image response
(`generatedImages[i].image`). -/
structure ImagePayload where
  imageBytes : String
  deriving DecidableEq, Repr

/-- One entry of `response.generatedImages`. -/
structure GeneratedImage where
  image : ImagePayload
  deriving DecidableEq, Repr

/-- Inline binary data of a multimodal response part (`part.inlineData`). -/
structure InlineData where
  mimeType : String
  data : String
  deriving DecidableEq, Repr

/-- One part of a multimodal request or response: inline image data, text,
or neither populated. -/
structure ResponsePart where
  inlineData : Option InlineData := none
  text : Option String := none
  deriving DecidableEq, Repr

/-- Outcome of the remote `generateImages` call: the promise rejects with a
message, or resolves with an optional list of generated images
(`response.generatedImages` may be `undefined`, modelled by `none`). -/
inductive GenOutcome
  | reject (message : String)
  | resolve (generatedImages : Option (List GeneratedImage))
  deriving DecidableEq, Repr

/-- Outcome of the remote `generateContent` call: the promise rejects with a
message, or resolves; on resolution the code only reads
`response.candidates[0].content.parts`, so we carry that part list. -/
inductive CombineOutcome
  | reject (message : String)
  | resolve (parts : List ResponsePart)
  deriving DecidableEq, Repr

/-- DOM-visible application state plus ghost observation fields.
`shown` records every string ever written to the status element (in order);
`dialogAttempts` counts calls of `openApiKeyDialog`; `dialogInvoked` records
whether the host dialog itself (`window.aistudio.openSelectKey`) was awaited. -/
structure St where
  activeTab : Tab
  promptGenerate : String
  promptCombine : String
  images : List (Option ImageData)
  outputSrc : String
  outputVisible : Bool
  downloadVisible : Bool
  status : String
  shown : List String
  controlsDisabled : Bool
  dialogAttempts : Nat
  dialogInvoked : Bool
  tabGenerateClass : String
  tabCombineClass : String
  panelGenerateVisible : Bool
  panelCombineVisible : Bool
  generateButtonLabel : String
  deriving DecidableEq, Repr

/-- Status messages of the source, verbatim. -/
def apiKeyMissingMsg : String :=
  "Clave de API no configurada. Por favor, añade tu clave de API."

/-- Fallback message of `openApiKeyDialog` when the host exposes no dialog. -/
def dialogFallbackMsg : String :=
  "La selección de clave de API no está disponible. Por favor, configura la variable de entorno API_KEY."

/-- Validation message for an empty generate prompt. -/
def promptGenerateMsg : String :=
  "Por favor, introduce un prompt para generar una imagen."

/-- Validation message for fewer than two populated slots in combine mode. -/
def needTwoImagesMsg : String :=
  "Por favor, sube al menos dos imágenes para combinar."

/-- Validation message for an empty combine prompt. -/
def promptCombineMsg : String :=
  "Por favor, describe cómo combinar las imágenes."

/-- Error thrown by `generateImage` when the response holds no image. -/
def noImagesMsg : String :=
  "No se generaron imágenes. El prompt puede haber sido bloqueado."

/-- Error thrown by `combineImages` when no part carries inline image data. -/
def noCombinedMsg : String :=
  "No se pudo generar una imagen combinada. Intenta con un prompt diferente."

/-- Tailored message for the model-not-found error class. -/
def notFoundFriendlyMsg : String :=
  "Modelo no encontrado. Esto puede ser causado por una clave de API inválida o problemas de permisos. Por favor, verifica tu clave de API."

/-- Tailored message for the invalid-credential error class. -/
def invalidKeyFriendlyMsg : String :=
  "Tu clave de API es inválida. Por favor, añade una clave de API válida."

/-- Progress message of generate mode. -/
def generatingMsg : String := "Generando imagen..."

/-- Progress message of combine mode. -/
def combiningMsg : String := "Combinando imágenes..."

/-- Success message after either call. -/
def successMsg : String := "Imagen generada con éxito."

/-- Class string given to the active tab by `switchTab`. -/
def activeTabClass : String :=
  "whitespace-nowrap py-4 px-1 border-b-2 font-medium text-sm text-blue-400 border-blue-400"

/-- Class string given to the inactive tab by `switchTab`. -/
def inactiveTabClass : String :=
  "whitespace-nowrap py-4 px-1 border-b-2 font-medium text-sm text-gray-500 border-transparent hover:text-gray-300 hover:border-gray-500"

/-- The span wrapper `showStatusError` writes into `statusEl.innerHTML`. -/
def errorSpan (message : String) : String :=
  "<span class=\"text-red-400\">" ++ message ++ "</span>"

/-- Embedding of `showStatusError`: write the red span into the status element
and log it in `shown`. -/
def showStatusError (s : St) (message : String) : St :=
  { s with status := errorSpan message, shown := s.shown ++ [errorSpan message] }

/-- Embedding of `statusEl.innerText = message` (plain status updates). -/
def setStatusText (s : St) (message : String) : St :=
  { s with status := message, shown := s.shown ++ [message] }

/-- Embedding of `openApiKeyDialog`: count the attempt; if the host exposes
`window.aistudio.openSelectKey` await it, otherwise show the fallback
message. -/
def openApiKeyDialog (dialogAvailable : Bool) (s : St) : St :=
  let s1 := { s with dialogAttempts := s.dialogAttempts + 1 }
  if dialogAvailable then { s1 with dialogInvoked := true }
  else showStatusError s1 dialogFallbackMsg

/-- Embedding of `generateImage`: given the outcome the remote service
delivers, either propagate the rejection, fail when the response carries no
image (`generatedImages` undefined or empty), or render the first image with
the fixed JPEG data-URL prefix and make output and download visible. -/
def generateImage (apiKey prompt : String) (outcome : GenOutcome) (s : St) :
    Except String St :=
  match outcome with
  | .reject message => .error message
  | .resolve generatedImages =>
    match generatedImages with
    | none => .error noImagesMsg
    | some [] => .error noImagesMsg
    | some (g :: _) =>
      .ok { s with
              outputSrc := "data:image/jpeg;base64," ++ g.image.imageBytes,
              outputVisible := true,
              downloadVisible := true }

/-- Request parts built by `combineImages` before the call: every uploaded
image as an inline-data part, then the prompt as one text part. -/
def combineRequestParts (prompt : String) (imageList : List ImageData) :
    List ResponsePart :=
  (imageList.map fun image =>
    { inlineData := some { mimeType := image.mimeType, data := image.base64 },
      text := none }) ++ [{ inlineData := none, text := some prompt }]

/-- Embedding of `combineImages`: given the outcome the remote service
delivers, either propagate the rejection, or scan the first candidate's parts
first-to-last and render the first part carrying inline data (its declared
MIME type and bytes); fail when no part carries inline data. -/
def combineImages (apiKey prompt : String) (imageList : List ImageData)
    (outcome : CombineOutcome) (s : St) : Except String St :=
  match outcome with
  | .reject message => .error message
  | .resolve parts =>
    match parts.findSome? (fun part => part.inlineData) with
    | some d =>
      .ok { s with
              outputSrc := "data:" ++ d.mimeType ++ ";base64," ++ d.data,
              outputVisible := true,
              downloadVisible := true }
    | none => .error noCombinedMsg

/-- Embedding of the error classification in `performGeneration`'s catch
block: returns the user-facing message and whether to open the key dialog. -/
def classifyError (errorMessage : String) : String × Bool :=
  if includes errorMessage "Requested entity was not found." then
    (notFoundFriendlyMsg, true)
  else if includes errorMessage "API_KEY_INVALID" ||
          includes errorMessage "API key not valid" ||
          includes (toLower errorMessage) "permission denied" then
    (invalidKeyFriendlyMsg, true)
  else
    ("Error: " ++ errorMessage, false)

/-- State changes performed right before the remote call: hide previous
output and download control, disable all controls. -/
def startRequest (s : St) : St :=
  { s with outputVisible := false, downloadVisible := false,
           controlsDisabled := true }

/-- Embedding of the try/catch/finally around the remote call: on success
show the success status; on failure classify the message, show the result and
optionally open the key dialog; in all cases re-enable the controls. -/
def finishRequest (dialogAvailable : Bool) (call : St → Except String St)
    (s : St) : St :=
  let s2 :=
    match call s with
    | .ok sOk => setStatusText sOk successMsg
    | .error errorMessage =>
      let c := classifyError errorMessage
      let sErr := showStatusError s c.1
      if c.2 then openApiKeyDialog dialogAvailable sErr else sErr
  { s2 with controlsDisabled := false }

/-- Embedding of `performGeneration`.  Inputs beyond the state: the
credential from process configuration, whether the host exposes the key
dialog, and the outcome each remote endpoint would deliver.  Returns the new
state and whether a network call was issued. -/
def performGeneration (apiKey : Option String) (dialogAvailable : Bool)
    (genOutcome : GenOutcome) (combOutcome : CombineOutcome) (s : St) :
    St × Bool :=
  match apiKey with
  | none =>
    (openApiKeyDialog dialogAvailable (showStatusError s apiKeyMissingMsg), false)
  | some key =>
    match s.activeTab with
    | Tab.generate =>
      if trim s.promptGenerate = "" then
        (showStatusError s promptGenerateMsg, false)
      else
        (finishRequest dialogAvailable
          (generateImage key (trim s.promptGenerate) genOutcome)
          (startRequest (setStatusText s generatingMsg)), true)
    | Tab.combine =>
      if (s.images.filterMap id).length < 2 then
        (showStatusError s needTwoImagesMsg, false)
      else if trim s.promptCombine = "" then
        (showStatusError s promptCombineMsg, false)
      else
        (finishRequest dialogAvailable
          (combineImages key (trim s.promptCombine) (s.images.filterMap id)
            combOutcome)
          (startRequest (setStatusText s combiningMsg)), true)

/-- Embedding of `switchTab`: set the active tab, restyle the two tab
buttons, show exactly one panel, relabel the action button.  Nothing else. -/
def switchTab (s : St) (tab : Tab) : St :=
  match tab with
  | Tab.generate =>
    { s with activeTab := Tab.generate,
             tabGenerateClass := activeTabClass,
             tabCombineClass := inactiveTabClass,
             panelGenerateVisible := true,
             panelCombineVisible := false,
             generateButtonLabel := "Generar" }
  | Tab.combine =>
    { s with activeTab := Tab.combine,
             tabCombineClass := activeTabClass,
             tabGenerateClass := inactiveTabClass,
             panelGenerateVisible := false,
             panelCombineVisible := true,
             generateButtonLabel := "Combinar" }

/-- The operations the source ever performs on the shared `images` array:
push a `null` slot (initial setup and the add-image button) or store a
decoded image at an existing index (`onImageLoaded`). -/
inductive SlotOp
  | pushSlot
  | storeImage (index : Nat) (imageData : ImageData)
  deriving DecidableEq, Repr

/-- Apply one slot operation to the shared `images` array. -/
def applySlotOp (images : List (Option ImageData)) : SlotOp → List (Option ImageData)
  | SlotOp.pushSlot => images ++ [none]
  | SlotOp.storeImage index imageData => images.set index (some imageData)

/-- Sample initial state used to instantiate theorems at concrete inputs. -/
def sampleGen : St :=
  { activeTab := Tab.generate, promptGenerate := "a red fox",
    promptCombine := "", images := [], outputSrc := "",
    outputVisible := false, downloadVisible := false, status := "",
    shown := [], controlsDisabled := false, dialogAttempts := 0,
    dialogInvoked := false, tabGenerateClass := "", tabCombineClass := "",
    panelGenerateVisible := true, panelCombineVisible := false,
    generateButtonLabel := "Generar" }

/-- Sample combine-mode state with two populated slots. -/
def sampleCombine : St :=
  { sampleGen with
    activeTab := Tab.combine, promptCombine := "merge these",
    images := [some ⟨"b1", "image/png"⟩, some ⟨"b2", "image/jpeg"⟩] }

/-- Over a block of elements on which `f` returns `none`, `findSome?` skips
to the rest of the list. -/
theorem findSome?_append_none {α β : Type} {f : α → Option β} {pre : List α}
    (h : ∀ p ∈ pre, f p = none) (rest : List α) :
    (pre ++ rest).findSome? f = rest.findSome? f := by
  induction pre with
  | nil => rfl
  | cons a as ih =>
    have ha : f a = none := h a (by simp)
    have hrec := ih (fun p hp => h p (by simp [hp]))
    simp only [List.cons_append, List.findSome?, ha]
    exact hrec

/-- Reduction of `performGeneration` when no credential is configured. -/
theorem performGeneration_no_key (da : Bool) (go : GenOutcome)
    (co : CombineOutcome) (s : St) :
    performGeneration none da go co s =
      (openApiKeyDialog da (showStatusError s apiKeyMissingMsg), false) := rfl

/-- Reduction of `performGeneration` in generate mode with an empty prompt. -/
theorem performGeneration_generate_empty (key : String) (da : Bool)
    (go : GenOutcome) (co : CombineOutcome) (s : St)
    (ht : s.activeTab = Tab.generate) (hp : trim s.promptGenerate = "") :
    performGeneration (some key) da go co s =
      (showStatusError s promptGenerateMsg, false) := by
  unfold performGeneration
  rw [ht]
  simp [hp]

/-- Reduction of `performGeneration` in generate mode past validation. -/
theorem performGeneration_generate_run (key : String) (da : Bool)
    (go : GenOutcome) (co : CombineOutcome) (s : St)
    (ht : s.activeTab = Tab.generate) (hp : trim s.promptGenerate ≠ "") :
    performGeneration (some key) da go co s =
      (finishRequest da (generateImage key (trim s.promptGenerate) go)
        (startRequest (setStatusText s generatingMsg)), true) := by
  unfold performGeneration
  rw [ht]
  simp [hp]

/-- Reduction of `performGeneration` in combine mode with under two slots. -/
theorem performGeneration_combine_few (key : String) (da : Bool)
    (go : GenOutcome) (co : CombineOutcome) (s : St)
    (ht : s.activeTab = Tab.combine)
    (hc : (s.images.filterMap id).length < 2) :
    performGeneration (some key) da go co s =
      (showStatusError s needTwoImagesMsg, false) := by
  unfold performGeneration
  rw [ht]
  simp [hc]

/-- Reduction of `performGeneration` in combine mode, two or more slots,
empty prompt. -/
theorem performGeneration_combine_empty (key : String) (da : Bool)
    (go : GenOutcome) (co : CombineOutcome) (s : St)
    (ht : s.activeTab = Tab.combine)
    (hc : ¬ (s.images.filterMap id).length < 2)
    (hp : trim s.promptCombine = "") :
    performGeneration (some key) da go co s =
      (showStatusError s promptCombineMsg, false) := by
  unfold performGeneration
  rw [ht]
  simp [hc, hp]

/-- Reduction of `performGeneration` in combine mode past validation. -/
theorem performGeneration_combine_run (key : String) (da : Bool)
    (go : GenOutcome) (co : CombineOutcome) (s : St)
    (ht : s.activeTab = Tab.combine)
    (hc : ¬ (s.images.filterMap id).length < 2)
    (hp : trim s.promptCombine ≠ "") :
    performGeneration (some key) da go co s =
      (finishRequest da
        (combineImages key (trim s.promptCombine) (s.images.filterMap id) co)
        (startRequest (setStatusText s combiningMsg)), true) := by
  unfold performGeneration
  rw [ht]
  simp [hc, hp]

/-- C3: for every successful combine response whose first candidate contains
an image-bearing part preceded only by non-image parts, `combineImages`
renders exactly that part's declared MIME type and bytes; if no part of the
first candidate carries inline image data, it fails with the
no-combined-image-produced error. -/
theorem combineImages_renders_first_inline_part
    (key prompt : String) (imageList : List ImageData) (s : St) :
    (∀ (pre : List ResponsePart) (part : ResponsePart)
       (post : List ResponsePart) (d : InlineData),
       part.inlineData = some d → (∀ p ∈ pre, p.inlineData = none) →
       combineImages key prompt imageList
           (CombineOutcome.resolve (pre ++ part :: post)) s =
         Except.ok { s with
                       outputSrc := "data:" ++ d.mimeType ++ ";base64," ++ d.data,
                       outputVisible := true, downloadVisible := true }) ∧
    (∀ parts : List ResponsePart, (∀ p ∈ parts, p.inlineData = none) →
       combineImages key prompt imageList (CombineOutcome.resolve parts) s =
         Except.error noCombinedMsg) := by
  constructor
  · intro pre part post d hd hpre
    have h1 : (pre ++ part :: post).findSome? (fun p => p.inlineData) = some d := by
      rw [findSome?_append_none hpre]
      simp only [List.findSome?, hd]
    simp only [combineImages, h1]
  · intro parts hparts
    have h1 : parts.findSome? (fun p => p.inlineData) = none := by
      have h2 := findSome?_append_none hparts ([] : List ResponsePart)
      rwa [List.append_nil] at h2
    simp only [combineImages, h1]

/-- Witness for C3 at a concrete response: a text part followed by an image
part; the image part is rendered. -/
theorem combineImages_renders_first_inline_part_witness :
    combineImages "k" "merge these" [⟨"b1", "image/png"⟩, ⟨"b2", "image/jpeg"⟩]
        (CombineOutcome.resolve
          [{ inlineData := none, text := some "here you go" },
           { inlineData := some ⟨"image/png", "Qk0="⟩, text := none }])
        sampleCombine =
      Except.ok { sampleCombine with
                    outputSrc := "data:image/png;base64,Qk0=",
                    outputVisible := true, downloadVisible := true } := by
  have h := (combineImages_renders_first_inline_part "k" "merge these"
    [⟨"b1", "image/png"⟩, ⟨"b2", "image/jpeg"⟩] sampleCombine).1
    [{ inlineData := none, text := some "here you go" }]
    { inlineData := some ⟨"image/png", "Qk0="⟩, text := none } [] ⟨"image/png", "Qk0="⟩
    rfl (by intro p hp; simp at hp; rw [hp])
  simpa using h

/-- C8: a tab switch changes only the active mode and its visual styling:
the slot sequence and both prompts are unchanged, and switching to the same
tab twice equals switching once (full-state idempotence). -/
theorem switchTab_preserves_images_and_prompts (s : St) (tab : Tab) :
    (switchTab s tab).images = s.images ∧
    (switchTab s tab).promptGenerate = s.promptGenerate ∧
    (switchTab s tab).promptCombine = s.promptCombine ∧
    switchTab (switchTab s tab) tab = switchTab s tab := by
  cases tab <;> exact ⟨rfl, rfl, rfl, rfl⟩

/-- C9: every operation the source performs on the slot sequence (push a
fresh empty slot, or store an image at an index) keeps the length
non-decreasing, over any sequence of operations. -/
theorem slots_never_shrink (images : List (Option ImageData))
    (ops : List SlotOp) :
    images.length ≤ (ops.foldl applySlotOp images).length := by
  induction ops generalizing images with
  | nil => simp
  | cons op ops ih =>
    refine le_trans ?_ (ih (applySlotOp images op))
    cases op with
    | pushSlot => simp [applySlotOp]
    | storeImage i d => simp [applySlotOp]

/-- C2: in combine mode with fewer than two populated slots, the primary
action shows the slot-validation message and issues no network call — for
every prompt, empty or not, because the slot check runs before the prompt
check. -/
theorem combine_two_slot_validation (key : String) (da : Bool)
    (go : GenOutcome) (co : CombineOutcome) (s : St)
    (ht : s.activeTab = Tab.combine)
    (hc : (s.images.filterMap id).length < 2) :
    (performGeneration (some key) da go co s).1.status =
      errorSpan needTwoImagesMsg ∧
    (performGeneration (some key) da go co s).2 = false := by
  rw [performGeneration_combine_few key da go co s ht hc]
  exact ⟨rfl, rfl⟩

/-- Witness for C2: one populated slot and a non-empty prompt still yield
the slot-validation message and no network call. -/
theorem combine_two_slot_validation_witness :
    (performGeneration (some "k") true (GenOutcome.reject "x")
        (CombineOutcome.reject "y")
        { sampleCombine with images := [some ⟨"b1", "image/png"⟩] }).1.status =
      errorSpan needTwoImagesMsg ∧
    (performGeneration (some "k") true (GenOutcome.reject "x")
        (CombineOutcome.reject "y")
        { sampleCombine with images := [some ⟨"b1", "image/png"⟩] }).2 = false := by
  exact combine_two_slot_validation "k" true (GenOutcome.reject "x")
    (CombineOutcome.reject "y")
    { sampleCombine with images := [some ⟨"b1", "image/png"⟩] } rfl (by decide)

/-- C5: with no configured credential the orchestrator shows the
configuration-missing message, attempts the key dialog exactly once (falling
back to the set-the-environment-variable message when the host exposes no
dialog), and issues no network call. -/
theorem missing_credential_flow (da : Bool) (go : GenOutcome)
    (co : CombineOutcome) (s : St) :
    errorSpan apiKeyMissingMsg ∈ (performGeneration none da go co s).1.shown ∧
    (performGeneration none da go co s).1.dialogAttempts =
      s.dialogAttempts + 1 ∧
    (da = false →
      (performGeneration none da go co s).1.status = errorSpan dialogFallbackMsg) ∧
    (performGeneration none da go co s).2 = false := by
  rw [performGeneration_no_key]
  cases da with
  | false =>
    refine ⟨?_, rfl, fun _ => rfl, rfl⟩
    simp [openApiKeyDialog, showStatusError]
  | true =>
    refine ⟨?_, rfl, fun hcontra => absurd hcontra (by simp), rfl⟩
    simp [openApiKeyDialog, showStatusError]

/-- Witness for C5 with the dialog unavailable: the fallback message ends up
in the status line and the configuration-missing message was shown. -/
theorem missing_credential_flow_witness :
    errorSpan apiKeyMissingMsg ∈
      (performGeneration none false (GenOutcome.reject "x")
        (CombineOutcome.reject "y") sampleGen).1.shown ∧
    (performGeneration none false (GenOutcome.reject "x")
        (CombineOutcome.reject "y") sampleGen).1.status =
      errorSpan dialogFallbackMsg := by
  have h := missing_credential_flow false (GenOutcome.reject "x")
    (CombineOutcome.reject "y") sampleGen
  exact ⟨h.1, h.2.2.1 rfl⟩

/-- C6: whenever the orchestrator actually starts a request (the returned
flag records that a network call was issued), the controls are re-enabled in
the final state, for every remote outcome. -/
theorem request_always_reenables_controls (apiKey : Option String) (da : Bool)
    (go : GenOutcome) (co : CombineOutcome) (s : St)
    (h : (performGeneration apiKey da go co s).2 = true) :
    (performGeneration apiKey da go co s).1.controlsDisabled = false := by
  cases apiKey with
  | none =>
    rw [performGeneration_no_key] at h
    simp at h
  | some key =>
    cases hta : s.activeTab with
    | generate =>
      by_cases hp : trim s.promptGenerate = ""
      · rw [performGeneration_generate_empty key da go co s hta hp] at h
        simp at h
      · rw [performGeneration_generate_run key da go co s hta hp]
        rfl
    | combine =>
      by_cases hc : (s.images.filterMap id).length < 2
      · rw [performGeneration_combine_few key da go co s hta hc] at h
        simp at h
      · by_cases hp : trim s.promptCombine = ""
        · rw [performGeneration_combine_empty key da go co s hta hc hp] at h
          simp at h
        · rw [performGeneration_combine_run key da go co s hta hc hp]
          rfl

/-- Witness for C6: a started generate request (remote rejects) still ends
with controls enabled. -/
theorem request_always_reenables_controls_witness :
    (performGeneration (some "k") true (GenOutcome.reject "boom")
        (CombineOutcome.reject "y") sampleGen).1.controlsDisabled = false := by
  exact request_always_reenables_controls (some "k") true
    (GenOutcome.reject "boom") (CombineOutcome.reject "y") sampleGen (by decide)

/-- C7: an empty or whitespace-only prompt (its trim is empty) makes the
primary action show the mode's prompt-validation message and issue no
network call — in generate mode, and in combine mode once two slots are
populated. -/
theorem empty_prompt_validation (key : String) (da : Bool) (go : GenOutcome)
    (co : CombineOutcome) (s : St) :
    (s.activeTab = Tab.generate → trim s.promptGenerate = "" →
      (performGeneration (some key) da go co s).1.status =
        errorSpan promptGenerateMsg ∧
      (performGeneration (some key) da go co s).2 = false) ∧
    (s.activeTab = Tab.combine → 2 ≤ (s.images.filterMap id).length →
      trim s.promptCombine = "" →
      (performGeneration (some key) da go co s).1.status =
        errorSpan promptCombineMsg ∧
      (performGeneration (some key) da go co s).2 = false) := by
  constructor
  · intro ht hp
    rw [performGeneration_generate_empty key da go co s ht hp]
    exact ⟨rfl, rfl⟩
  · intro ht hc hp
    rw [performGeneration_combine_empty key da go co s ht (by omega) hp]
    exact ⟨rfl, rfl⟩

/-- Witness for C7: a whitespace-only generate prompt yields the validation
message and no network call. -/
theorem empty_prompt_validation_witness :
    (performGeneration (some "k") true (GenOutcome.reject "x")
        (CombineOutcome.reject "y")
        { sampleGen with promptGenerate := "   " }).1.status =
      errorSpan promptGenerateMsg ∧
    (performGeneration (some "k") true (GenOutcome.reject "x")
        (CombineOutcome.reject "y")
        { sampleGen with promptGenerate := "   " }).2 = false := by
  exact (empty_prompt_validation "k" true (GenOutcome.reject "x")
    (CombineOutcome.reject "y") { sampleGen with promptGenerate := "   " }).1
    rfl (by decide)

/-- C10: when the trigger stops at a pre-request failure (missing
credential, empty prompt, or fewer than two populated slots in combine
mode), the output-image and download-control visibility are exactly as
before the trigger. -/
theorem prevalidation_failure_preserves_output (apiKey : Option String)
    (da : Bool) (go : GenOutcome) (co : CombineOutcome) (s : St)
    (h : apiKey = none ∨
         (s.activeTab = Tab.generate ∧ trim s.promptGenerate = "") ∨
         (s.activeTab = Tab.combine ∧
           ((s.images.filterMap id).length < 2 ∨ trim s.promptCombine = ""))) :
    (performGeneration apiKey da go co s).1.outputVisible = s.outputVisible ∧
    (performGeneration apiKey da go co s).1.downloadVisible = s.downloadVisible := by
  rcases h with rfl | ⟨ht, hp⟩ | ⟨ht, hcp⟩
  · rw [performGeneration_no_key]
    cases da <;> exact ⟨rfl, rfl⟩
  · cases apiKey with
    | none =>
      rw [performGeneration_no_key]
      cases da <;> exact ⟨rfl, rfl⟩
    | some key =>
      rw [performGeneration_generate_empty key da go co s ht hp]
      exact ⟨rfl, rfl⟩
  · cases apiKey with
    | none =>
      rw [performGeneration_no_key]
      cases da <;> exact ⟨rfl, rfl⟩
    | some key =>
      rcases hcp with hc | hp
      · rw [performGeneration_combine_few key da go co s ht hc]
        exact ⟨rfl, rfl⟩
      · by_cases hc : (s.images.filterMap id).length < 2
        · rw [performGeneration_combine_few key da go co s ht hc]
          exact ⟨rfl, rfl⟩
        · rw [performGeneration_combine_empty key da go co s ht hc hp]
          exact ⟨rfl, rfl⟩

/-- Witness for C10: with a previously rendered output visible and the
credential missing, the output and download control stay visible. -/
theorem prevalidation_failure_preserves_output_witness :
    (performGeneration none true (GenOutcome.reject "x")
        (CombineOutcome.reject "y")
        { sampleGen with outputVisible := true, downloadVisible := true }).1.outputVisible
      = true ∧
    (performGeneration none true (GenOutcome.reject "x")
        (CombineOutcome.reject "y")
        { sampleGen with outputVisible := true, downloadVisible := true }).1.downloadVisible
      = true := by
  have h := prevalidation_failure_preserves_output none true
    (GenOutcome.reject "x") (CombineOutcome.reject "y")
    { sampleGen with outputVisible := true, downloadVisible := true }
    (Or.inl rfl)
  exact ⟨h.1, h.2⟩

/-- Behaviour of the try/catch embedding when the awaited call rejects:
the three classification cases of the catch block, stated on the final
state. -/
theorem finishRequest_error_cases (da : Bool) (msg : String)
    (call : St → Except String St) (s2 : St)
    (hcall : call s2 = Except.error msg) :
    (includes msg "Requested entity was not found." = true →
      errorSpan notFoundFriendlyMsg ∈ (finishRequest da call s2).shown ∧
      (finishRequest da call s2).dialogAttempts = s2.dialogAttempts + 1) ∧
    (includes msg "Requested entity was not found." = false →
      (includes msg "API_KEY_INVALID" || includes msg "API key not valid" ||
        includes (toLower msg) "permission denied") = true →
      errorSpan invalidKeyFriendlyMsg ∈ (finishRequest da call s2).shown ∧
      (finishRequest da call s2).dialogAttempts = s2.dialogAttempts + 1) ∧
    (includes msg "Requested entity was not found." = false →
      (includes msg "API_KEY_INVALID" || includes msg "API key not valid" ||
        includes (toLower msg) "permission denied") = false →
      (finishRequest da call s2).status = errorSpan ("Error: " ++ msg) ∧
      (finishRequest da call s2).dialogAttempts = s2.dialogAttempts) := by
  refine ⟨?_, ?_, ?_⟩
  · intro h1
    have hc : classifyError msg = (notFoundFriendlyMsg, true) := by
      simp [classifyError, h1]
    simp only [finishRequest, hcall, hc]
    cases da <;> simp [openApiKeyDialog, showStatusError]
  · intro h1 h2
    have hc : classifyError msg = (invalidKeyFriendlyMsg, true) := by
      simp [classifyError, h1, h2]
    simp only [finishRequest, hcall, hc]
    cases da <;> simp [openApiKeyDialog, showStatusError]
  · intro h1 h2
    have hc : classifyError msg = ("Error: " ++ msg, false) := by
      simp [classifyError, h1, h2]
    simp only [finishRequest, hcall, hc]
    simp [showStatusError]

/-- C1: for every request the orchestrator starts, in either mode, a
rejected remote call is classified by substring: the entity-not-found phrase
yields the model-not-found message plus a dialog attempt; otherwise the
invalid-key phrases (case-insensitive for the permission phrasing) yield the
invalid-credential message plus a dialog attempt; any other message is shown
raw behind the Error label with no dialog attempt. -/
theorem remote_error_classification (key : String) (da : Bool) (msg : String)
    (s : St)
    (h : (performGeneration (some key) da (GenOutcome.reject msg)
            (CombineOutcome.reject msg) s).2 = true) :
    (includes msg "Requested entity was not found." = true →
      errorSpan notFoundFriendlyMsg ∈
        (performGeneration (some key) da (GenOutcome.reject msg)
          (CombineOutcome.reject msg) s).1.shown ∧
      (performGeneration (some key) da (GenOutcome.reject msg)
          (CombineOutcome.reject msg) s).1.dialogAttempts
        = s.dialogAttempts + 1) ∧
    (includes msg "Requested entity was not found." = false →
      (includes msg "API_KEY_INVALID" || includes msg "API key not valid" ||
        includes (toLower msg) "permission denied") = true →
      errorSpan invalidKeyFriendlyMsg ∈
        (performGeneration (some key) da (GenOutcome.reject msg)
          (CombineOutcome.reject msg) s).1.shown ∧
      (performGeneration (some key) da (GenOutcome.reject msg)
          (CombineOutcome.reject msg) s).1.dialogAttempts
        = s.dialogAttempts + 1) ∧
    (includes msg "Requested entity was not found." = false →
      (includes msg "API_KEY_INVALID" || includes msg "API key not valid" ||
        includes (toLower msg) "permission denied") = false →
      (performGeneration (some key) da (GenOutcome.reject msg)
          (CombineOutcome.reject msg) s).1.status
        = errorSpan ("Error: " ++ msg) ∧
      (performGeneration (some key) da (GenOutcome.reject msg)
          (CombineOutcome.reject msg) s).1.dialogAttempts
        = s.dialogAttempts) := by
  cases hta : s.activeTab with
  | generate =>
    by_cases hp : trim s.promptGenerate = ""
    · rw [performGeneration_generate_empty key da _ _ s hta hp] at h
      simp at h
    · rw [performGeneration_generate_run key da _ _ s hta hp]
      exact finishRequest_error_cases da msg _ _ rfl
  | combine =>
    by_cases hc : (s.images.filterMap id).length < 2
    · rw [performGeneration_combine_few key da _ _ s hta hc] at h
      simp at h
    · by_cases hp : trim s.promptCombine = ""
      · rw [performGeneration_combine_empty key da _ _ s hta hc hp] at h
        simp at h
      · rw [performGeneration_combine_run key da _ _ s hta hc hp]
        exact finishRequest_error_cases da msg _ _ rfl

/-- Witness for C1 at the message of the spec scenario, which contains
"API key not valid": the invalid-credential message is shown and the dialog
attempted. -/
theorem remote_error_classification_witness :
    errorSpan invalidKeyFriendlyMsg ∈
      (performGeneration (some "k") true
        (GenOutcome.reject "API key not valid. Please pass a valid key.")
        (CombineOutcome.reject "API key not valid. Please pass a valid key.")
        sampleGen).1.shown ∧
    (performGeneration (some "k") true
        (GenOutcome.reject "API key not valid. Please pass a valid key.")
        (CombineOutcome.reject "API key not valid. Please pass a valid key.")
        sampleGen).1.dialogAttempts
      = sampleGen.dialogAttempts + 1 := by
  have h := remote_error_classification "k" true
    "API key not valid. Please pass a valid key." sampleGen (by decide)
  exact h.2.1 (by decide) (by decide)

/-- C4: a generate request with zero image results (missing or empty list)
fails with the no-image message and leaves output and download hidden; a
response with at least one image renders the first result's bytes behind the
fixed JPEG data-URL prefix and makes output and download visible. -/
theorem generate_result_rendering (key : String) (da : Bool)
    (co : CombineOutcome) (s : St)
    (ht : s.activeTab = Tab.generate) (hp : trim s.promptGenerate ≠ "") :
    (∀ gi : Option (List GeneratedImage), (gi = none ∨ gi = some []) →
      (performGeneration (some key) da (GenOutcome.resolve gi) co s).1.outputVisible
        = false ∧
      (performGeneration (some key) da (GenOutcome.resolve gi) co s).1.downloadVisible
        = false ∧
      errorSpan ("Error: " ++ noImagesMsg) ∈
        (performGeneration (some key) da (GenOutcome.resolve gi) co s).1.shown) ∧
    (∀ (g : GeneratedImage) (rest : List GeneratedImage),
      (performGeneration (some key) da
          (GenOutcome.resolve (some (g :: rest))) co s).1.outputSrc
        = "data:image/jpeg;base64," ++ g.image.imageBytes ∧
      (performGeneration (some key) da
          (GenOutcome.resolve (some (g :: rest))) co s).1.outputVisible = true ∧
      (performGeneration (some key) da
          (GenOutcome.resolve (some (g :: rest))) co s).1.downloadVisible = true ∧
      (performGeneration (some key) da
          (GenOutcome.resolve (some (g :: rest))) co s).1.status = successMsg) := by
  have hc : classifyError noImagesMsg = ("Error: " ++ noImagesMsg, false) := by
    decide
  constructor
  · rintro gi (rfl | rfl) <;>
    · rw [performGeneration_generate_run key da _ co s ht hp]
      refine ⟨rfl, rfl, ?_⟩
      simp only [finishRequest, generateImage, hc]
      simp [showStatusError, startRequest, setStatusText]
  · intro g rest
    rw [performGeneration_generate_run key da _ co s ht hp]
    exact ⟨rfl, rfl, rfl, rfl⟩

/-- Witness for C4: one returned image is rendered with the JPEG prefix and
both controls become visible. -/
theorem generate_result_rendering_witness :
    (performGeneration (some "k") true
        (GenOutcome.resolve (some [⟨⟨"QUJD"⟩⟩]))
        (CombineOutcome.reject "y") sampleGen).1.outputSrc
      = "data:image/jpeg;base64," ++ "QUJD" ∧
    (performGeneration (some "k") true
        (GenOutcome.resolve (some [⟨⟨"QUJD"⟩⟩]))
        (CombineOutcome.reject "y") sampleGen).1.outputVisible = true ∧
    (performGeneration (some "k") true
        (GenOutcome.resolve (some [⟨⟨"QUJD"⟩⟩]))
        (CombineOutcome.reject "y") sampleGen).1.downloadVisible = true := by
  have h := (generate_result_rendering "k" true (CombineOutcome.reject "y")
    sampleGen rfl (by decide)).2 ⟨⟨"QUJD"⟩⟩ []
  exact ⟨h.1, h.2.1, h.2.2.1⟩

end ImageApp
